import Mathlib

/-!
Shallow embedding of the `aws-request-sigv4` wrapper
(src/aws-request-sigv4/index.ts and src/aws-request-sigv4/models.ts).

The wrapper builds an HTTP request descriptor from a `RequestSignatureInput`,
validates the body for non-GET methods, selects a credential source by the
truthiness of `roleArn`, and delegates the actual SigV4 work to an external
signer (`SignatureV4.sign` / `SignatureV4.presign` from the AWS SDK).  The
external signer and presigner are modelled as abstract total collaborators
(`SignerModel`); everything the wrapper itself does is embedded faithfully,
including JavaScript truthiness on the optional string fields and the
relevant behaviour of the WHATWG `URL` constructor on
`https://{hostname}{path}`.
-/

set_option maxHeartbeats 1000000

/-- The HTTP methods admitted by `RequestSignatureInput.method`
(the TypeScript union `'GET' | 'POST' | 'PUT'`). -/
inductive Method where
  | GET
  | POST
  | PUT
deriving DecidableEq

/-- A JavaScript `Error` value: a `name` and a `message`. -/
structure JsError where
  name : String
  message : String
deriving DecidableEq

/-- models.ts, `BadRequestException`: extends `Error`, the constructor stores
the message and sets `this.name = 'BadRequestException'`. -/
def BadRequestException (message : String) : JsError :=
  { name := "BadRequestException", message := message }

/-- models.ts, `RequestSignatureInput`.  Optional fields are `Option`;
`body` (TypeScript `any`) is modelled as an optional string, `query` and
`headers` as optional association lists of string pairs. -/
structure RequestSignatureInput where
  service : String
  region : String
  roleArn : Option String
  hostname : String
  path : Option String
  method : Method
  body : Option String
  query : Option (List (String × String))
  headers : Option (List (String × String))
deriving DecidableEq

/-- The `HttpRequest` descriptor built by the wrapper and consumed /
returned by the external signer. -/
structure HttpRequest where
  hostname : String
  path : String
  method : Method
  headers : List (String × String)
  query : Option (List (String × String))
  body : Option String
deriving DecidableEq

/-- JavaScript truthiness of an optional string: `undefined` and the empty
string are falsy (`!x` is `true`), every other string is truthy. -/
def jsFalsy : Option String → Bool
  | none => true
  | some s => s == ""

/-- Characters that end the host part of a WHATWG URL authority.  For
special schemes such as `https`, the standard treats a backslash exactly
like a forward slash, so it too terminates the host. -/
def plainHostChar (c : Char) : Bool :=
  c ≠ '/' && c ≠ '\\' && c ≠ '?' && c ≠ '#'

/-- The `hostname` of `new URL ("https://" ++ s)`: the prefix of `s` up to the
first `/`, `?` or `#`, ASCII-lowercased. -/
def urlHostname (s : String) : String :=
  String.mk ((s.toList.takeWhile plainHostChar).map Char.toLower)

/-- The characters of the path part of `new URL ("https://" ++ s)`:
what follows the host, cut before any `?` or `#`, with backslashes folded
to forward slashes as WHATWG special-scheme path parsing does. -/
def urlPathChars (s : String) : List Char :=
  ((s.toList.dropWhile plainHostChar).takeWhile fun c => c ≠ '?' && c ≠ '#').map
    fun c => if c = '\\' then '/' else c

/-- The `pathname` of `new URL ("https://" ++ s)`: the path part, or `/` when
it is empty. -/
def urlPathname (s : String) : String :=
  if urlPathChars s = [] then "/" else String.mk (urlPathChars s)

/-- Association-list lookup on a header map (first entry wins, as in a
JavaScript object, whose keys are unique). -/
def getHeader : List (String × String) → String → Option String
  | [], _ => none
  | (k, v) :: hs, k0 => if k0 = k then some v else getHeader hs k0

/-- `delete obj[k]` on a header map: drop the entry for key `k`. -/
def deleteHeader : List (String × String) → String → List (String × String)
  | [], _ => []
  | (k, v) :: hs, k0 =>
    if k = k0 then deleteHeader hs k0 else (k, v) :: deleteHeader hs k0

/-- The object spread `\x7b ...hs, k: v \x7d`: every entry of `hs` except `k`
is kept, and `k` is bound to `v`. -/
def setHeader (hs : List (String × String)) (k v : String) :
    List (String × String) :=
  deleteHeader hs k ++ [(k, v)]

/-- index.ts lines 68-75: the credential source passed to `SignatureV4`.
`fromTemporaryCredentials` with the role ARN and `DurationSeconds: 3600`
when `input.roleArn` is truthy, `defaultProvider()` otherwise. -/
inductive CredentialSource where
  | temporary (roleArn : String) (durationSeconds : Nat)
  | defaultChain
deriving DecidableEq

/-- The external collaborators the wrapper delegates to:
`SignatureV4.sign` and `SignatureV4.presign`, abstracted as total functions
of the credential source, service, region and request. -/
structure SignerModel where
  signFn : CredentialSource → String → String → HttpRequest → HttpRequest
  presignFn : CredentialSource → String → String → HttpRequest → HttpRequest

/-- The string handed to the URL constructor, without its `https://` scheme:
`input.hostname` followed by `input.path || ''`. -/
def urlStrOf (input : RequestSignatureInput) : String :=
  input.hostname ++ input.path.getD ""

/-- index.ts lines 45-54: the `HttpRequest` constructed from the input.
`url = new URL ("https://" ++ input.hostname ++ (input.path or ""))`; the
request takes `url.hostname`, `url.pathname`, the input method, and the
caller headers spread under a synthetic `host: url.hostname` entry. -/
def baseRequest (input : RequestSignatureInput) : HttpRequest :=
  { hostname := urlHostname (urlStrOf input)
    path := urlPathname (urlStrOf input)
    method := input.method
    headers := setHeader (input.headers.getD []) "host" (urlHostname (urlStrOf input))
    query := none
    body := none }

/-- index.ts lines 57-59: `if (input.query) request.query = input.query`
(a present query object is always truthy). -/
def withQuery (input : RequestSignatureInput) (r : HttpRequest) : HttpRequest :=
  match input.query with
  | some q => { r with query := some q }
  | none => r

/-- index.ts lines 45-66: the request handed to the signer.  For a non-GET
method a falsy body raises `BadRequestException ('Request body is missing')`,
otherwise the body is attached. -/
def buildRequest (input : RequestSignatureInput) : Except JsError HttpRequest :=
  let r := withQuery input (baseRequest input)
  if input.method ≠ Method.GET then
    if jsFalsy input.body then
      Except.error (BadRequestException "Request body is missing")
    else
      Except.ok { r with body := input.body }
  else
    Except.ok r

/-- index.ts lines 68-75: `input.roleArn ? fromTemporaryCredentials(...)
: defaultProvider()`, with `DurationSeconds: 3600`. -/
def selectCredentials (input : RequestSignatureInput) : CredentialSource :=
  match input.roleArn with
  | some arn =>
    if arn = "" then CredentialSource.defaultChain
    else CredentialSource.temporary arn 3600
  | none => CredentialSource.defaultChain

/-- index.ts lines 44-89, `AWSRequestSignatureV4.sign`.  The second argument
`addSignatureTo` is compared against the exact string `'headers'`; on that
branch the signed request's `host` header is deleted, on every other value
(including `undefined`) the presigner's result is returned unchanged. -/
def AWSRequestSignatureV4.sign (ext : SignerModel)
    (input : RequestSignatureInput) (addSignatureTo : Option String) :
    Except JsError HttpRequest :=
  match buildRequest input with
  | Except.error e => Except.error e
  | Except.ok request =>
    let credentialsToUse := selectCredentials input
    if addSignatureTo = some "headers" then
      let signedRequest := ext.signFn credentialsToUse input.service input.region request
      Except.ok { signedRequest with
                  headers := deleteHeader signedRequest.headers "host" }
    else
      Except.ok (ext.presignFn credentialsToUse input.service input.region request)

/-- A trivially concrete collaborator: both signing functions return the
request unchanged.  Used to instantiate theorems at concrete inputs. -/
def idSigner : SignerModel :=
  { signFn := fun _ _ _ r => r
    presignFn := fun _ _ _ r => r }

/-- A human-readable tag for a credential source. -/
def credTag : CredentialSource → String
  | CredentialSource.temporary arn d => "temporary:" ++ arn ++ ":" ++ toString d
  | CredentialSource.defaultChain => "default"

/-- A probing collaborator that records which credential source it was
handed, by writing its tag into the body of the returned request. -/
def probeSigner : SignerModel :=
  { signFn := fun c _ _ r => { r with body := some (credTag c) }
    presignFn := fun c _ _ r => { r with body := some (credTag c) } }

/-- A collaborator whose signing step mimics the external library: it adds
an `authorization` header (and keeps the synthetic `host` header). -/
def authSigner : SignerModel :=
  { signFn := fun _ _ _ r =>
      { r with headers := r.headers ++ [("authorization", "AWS4-HMAC-SHA256 test")] }
    presignFn := fun _ _ _ r => r }

/-- Concrete input: POST with a present but empty (hence falsy) body. -/
def cPostEmptyBody : RequestSignatureInput :=
  { service := "execute-api", region := "eu-west-1", roleArn := none,
    hostname := "example.com", path := some "/users", method := Method.POST,
    body := some "", query := none, headers := none }

/-- Concrete input: POST with a truthy body. -/
def cPostBody : RequestSignatureInput :=
  { service := "execute-api", region := "eu-west-1", roleArn := none,
    hostname := "example.com", path := some "/users", method := Method.POST,
    body := some "payload", query := none, headers := none }

/-- Concrete input: GET with empty service and region identifiers. -/
def cEmptyService : RequestSignatureInput :=
  { service := "", region := "", roleArn := none,
    hostname := "example.com", path := none, method := Method.GET,
    body := none, query := none, headers := none }

/-- Concrete input: GET whose role ARN is present but empty (falsy). -/
def cRoleEmpty : RequestSignatureInput :=
  { service := "execute-api", region := "eu-west-1", roleArn := some "",
    hostname := "example.com", path := none, method := Method.GET,
    body := none, query := none, headers := none }

/-- Concrete input: GET with a non-empty role ARN. -/
def cRoleFull : RequestSignatureInput :=
  { service := "execute-api", region := "eu-west-1",
    roleArn := some "arn:aws:iam::1111111111:role/example",
    hostname := "example.com", path := none, method := Method.GET,
    body := none, query := none, headers := none }

/-- Concrete input: absent path, but a hostname that itself carries a path
segment, so the URL constructor yields a non-root pathname. -/
def cHostSlash : RequestSignatureInput :=
  { service := "execute-api", region := "eu-west-1", roleArn := none,
    hostname := "example.com/extra", path := none, method := Method.GET,
    body := none, query := none, headers := none }

/-- Concrete input: plain GET with caller headers (including a caller-supplied
host entry), a query and a (to-be-ignored) body. -/
def cGetPlain : RequestSignatureInput :=
  { service := "execute-api", region := "eu-west-1", roleArn := none,
    hostname := "example.com", path := some "/users", method := Method.GET,
    body := some "ignored", query := some [("param1", "paramValue")],
    headers := some [("x-api-key", "k1"), ("host", "caller.example")] }

/-! Helper lemmas about the header-map operations and the wrapper. -/

theorem getHeader_deleteHeader (hs : List (String × String)) (k k0 : String) :
    getHeader (deleteHeader hs k) k0 = if k0 = k then none else getHeader hs k0 := by
  induction hs with
  | nil => simp [deleteHeader, getHeader]
  | cons p hs ih =>
    obtain ⟨a, b⟩ := p
    by_cases hak : a = k
    · subst hak
      by_cases hk : k0 = a
      · subst hk
        simp [deleteHeader, getHeader, ih]
      · simp [deleteHeader, getHeader, hk, ih]
    · by_cases hk : k0 = a
      · subst hk
        have hkk : ¬ k0 = k := hak
        simp [deleteHeader, getHeader, hak, hkk]
      · simp [deleteHeader, getHeader, hak, hk, ih]

theorem getHeader_append (l1 l2 : List (String × String)) (k : String) :
    getHeader (l1 ++ l2) k =
      match getHeader l1 k with
      | some v => some v
      | none => getHeader l2 k := by
  induction l1 with
  | nil => simp [getHeader]
  | cons p l1 ih =>
    obtain ⟨a, b⟩ := p
    by_cases hk : k = a <;> simp [getHeader, hk, ih]

theorem getHeader_setHeader (hs : List (String × String)) (k v k0 : String) :
    getHeader (setHeader hs k v) k0 = if k0 = k then some v else getHeader hs k0 := by
  unfold setHeader
  rw [getHeader_append, getHeader_deleteHeader]
  by_cases hk : k0 = k
  · simp [hk, getHeader]
  · simp only [hk, if_false]
    cases h : getHeader hs k0 <;> simp [getHeader, hk]

theorem dropWhile_eq_nil_of_all {p : Char → Bool} {l : List Char}
    (h : l.all p = true) : l.dropWhile p = [] := by
  simp only [List.dropWhile_eq_nil_iff]
  intro x hx
  exact List.all_eq_true.mp h x hx

theorem withQuery_body (input : RequestSignatureInput) (r : HttpRequest) :
    (withQuery input r).body = r.body := by
  unfold withQuery
  cases input.query <;> rfl

theorem withQuery_headers (input : RequestSignatureInput) (r : HttpRequest) :
    (withQuery input r).headers = r.headers := by
  unfold withQuery
  cases input.query <;> rfl

theorem withQuery_path (input : RequestSignatureInput) (r : HttpRequest) :
    (withQuery input r).path = r.path := by
  unfold withQuery
  cases input.query <;> rfl

theorem buildRequest_error_iff (input : RequestSignatureInput) (e : JsError) :
    buildRequest input = Except.error e ↔
      input.method ≠ Method.GET ∧ jsFalsy input.body = true ∧
        e = BadRequestException "Request body is missing" := by
  unfold buildRequest
  by_cases hm : input.method = Method.GET
  · simp [hm]
  · by_cases hb : jsFalsy input.body <;> simp [hm, hb, eq_comm]

theorem buildRequest_ok_GET (input : RequestSignatureInput)
    (h : input.method = Method.GET) :
    buildRequest input = Except.ok (withQuery input (baseRequest input)) := by
  unfold buildRequest
  simp [h]

theorem buildRequest_ok_of_truthy_body (input : RequestSignatureInput)
    (hm : input.method ≠ Method.GET) (hb : jsFalsy input.body = false) :
    buildRequest input =
      Except.ok { withQuery input (baseRequest input) with body := input.body } := by
  unfold buildRequest
  simp [hm, hb]

theorem buildRequest_ok_shape (input : RequestSignatureInput) (req : HttpRequest)
    (h : buildRequest input = Except.ok req) :
    req.path = (baseRequest input).path ∧ req.headers = (baseRequest input).headers := by
  by_cases hm : input.method = Method.GET
  · rw [buildRequest_ok_GET input hm] at h
    cases h
    exact ⟨withQuery_path input _, withQuery_headers input _⟩
  · by_cases hb : jsFalsy input.body
    · rw [(buildRequest_error_iff input (BadRequestException "Request body is missing")).mpr
        ⟨hm, hb, rfl⟩] at h
      cases h
    · rw [buildRequest_ok_of_truthy_body input hm (by simpa using hb)] at h
      cases h
      refine ⟨?_, ?_⟩
      · exact withQuery_path input _
      · exact withQuery_headers input _

theorem sign_eq (ext : SignerModel) (input : RequestSignatureInput)
    (mode : Option String) :
    AWSRequestSignatureV4.sign ext input mode =
      match buildRequest input with
      | Except.error e => Except.error e
      | Except.ok req =>
        if mode = some "headers" then
          Except.ok { ext.signFn (selectCredentials input) input.service input.region req with
                      headers := deleteHeader
                        (ext.signFn (selectCredentials input) input.service input.region req).headers
                        "host" }
        else
          Except.ok (ext.presignFn (selectCredentials input) input.service input.region req) := by
  unfold AWSRequestSignatureV4.sign
  cases buildRequest input <;> rfl

theorem sign_error_iff (ext : SignerModel) (input : RequestSignatureInput)
    (mode : Option String) (e : JsError) :
    AWSRequestSignatureV4.sign ext input mode = Except.error e ↔
      buildRequest input = Except.error e := by
  rw [sign_eq]
  cases hb : buildRequest input with
  | error e0 => simp
  | ok req => by_cases hmode : mode = some "headers" <;> simp [hmode]

/-! Claim theorems. -/

/-- C1 counterexample: the input `cPostEmptyBody` has method POST and a
present body (the empty string), yet `sign` raises the missing-body
`BadRequestException`, because the code tests `!input.body` (JavaScript
falsiness), not absence. -/
theorem c1_counterexample :
    cPostEmptyBody.method = Method.POST ∧
    cPostEmptyBody.body.isSome = true ∧
    AWSRequestSignatureV4.sign idSigner cPostEmptyBody none =
      Except.error (BadRequestException "Request body is missing") :=
  ⟨rfl, rfl, rfl⟩

/-- C1 (amended): for every input whose method is POST or PUT, a falsy body
(absent or empty) makes `sign` return the missing-body `BadRequestException`
for every collaborator — so before any signing takes place — while a truthy
body is attached unchanged to the request that gets signed and `sign`
succeeds. -/
theorem c1_body_validation (ext : SignerModel) (mode : Option String)
    (input : RequestSignatureInput)
    (h : input.method = Method.POST ∨ input.method = Method.PUT) :
    (jsFalsy input.body = true →
      AWSRequestSignatureV4.sign ext input mode =
        Except.error (BadRequestException "Request body is missing")) ∧
    (jsFalsy input.body = false →
      ∃ req, buildRequest input = Except.ok req ∧ req.body = input.body ∧
        ∃ s, AWSRequestSignatureV4.sign ext input mode = Except.ok s) := by
  have hm : input.method ≠ Method.GET := by
    rcases h with h | h <;> simp [h]
  constructor
  · intro hb
    exact (sign_error_iff ext input mode _).mpr
      ((buildRequest_error_iff input _).mpr ⟨hm, hb, rfl⟩)
  · intro hb
    refine ⟨_, buildRequest_ok_of_truthy_body input hm hb, rfl, ?_⟩
    · rw [sign_eq, buildRequest_ok_of_truthy_body input hm hb]
      by_cases hmode : mode = some "headers" <;> simp [hmode]

/-- C1 witness: the amended theorem applied at `cPostBody` (POST with body
`payload`). -/
theorem c1_body_validation_witness :
    ∃ req, buildRequest cPostBody = Except.ok req ∧ req.body = cPostBody.body ∧
      ∃ s, AWSRequestSignatureV4.sign idSigner cPostBody none = Except.ok s :=
  (c1_body_validation idSigner none cPostBody (Or.inl rfl)).2 rfl

/-- C2 counterexample: with empty `service` and `region` identifiers, `sign`
does not signal any validation error and proceeds to produce a signed
request. -/
theorem c2_counterexample :
    cEmptyService.service = "" ∧ cEmptyService.region = "" ∧
    ∃ r, AWSRequestSignatureV4.sign idSigner cEmptyService none = Except.ok r :=
  ⟨rfl, rfl, ⟨_, rfl⟩⟩

/-- C2 (amended): the wrapper performs no validation of the service or region
identifiers (nor of any credential fields, which it never sees — it only
chooses a credential provider).  Even with an empty service or region, `sign`
produces a signed request whenever the missing-body check does not fire. -/
theorem c2_no_input_validation (ext : SignerModel) (mode : Option String)
    (input : RequestSignatureInput)
    (_hsr : input.service = "" ∨ input.region = "")
    (hok : input.method = Method.GET ∨ jsFalsy input.body = false) :
    ∃ r, AWSRequestSignatureV4.sign ext input mode = Except.ok r := by
  rw [sign_eq]
  by_cases hm : input.method = Method.GET
  · rw [buildRequest_ok_GET input hm]
    by_cases hmode : mode = some "headers" <;> simp [hmode]
  · have hb : jsFalsy input.body = false := by
      rcases hok with h | h
      · exact absurd h hm
      · exact h
    rw [buildRequest_ok_of_truthy_body input hm hb]
    by_cases hmode : mode = some "headers" <;> simp [hmode]

/-- C2 witness: the amended theorem applied at `cEmptyService`. -/
theorem c2_no_input_validation_witness :
    ∃ r, AWSRequestSignatureV4.sign idSigner cEmptyService none = Except.ok r :=
  c2_no_input_validation idSigner none cEmptyService (Or.inl rfl) (Or.inl rfl)

/-- C3: on the `headers` branch the returned signed request has no `host`
key while every other header is exactly as the signer produced it; on the
`query` branch the presigner's output is returned with no removal. -/
theorem c3_host_header_removed (ext : SignerModel) (input : RequestSignatureInput)
    (req : HttpRequest) (h : buildRequest input = Except.ok req) :
    (∃ r, AWSRequestSignatureV4.sign ext input (some "headers") = Except.ok r ∧
      getHeader r.headers "host" = none ∧
      ∀ k, k ≠ "host" → getHeader r.headers k =
        getHeader (ext.signFn (selectCredentials input) input.service input.region req).headers k) ∧
    AWSRequestSignatureV4.sign ext input (some "query") =
      Except.ok (ext.presignFn (selectCredentials input) input.service input.region req) := by
  constructor
  · refine ⟨{ ext.signFn (selectCredentials input) input.service input.region req with
        headers := deleteHeader
          (ext.signFn (selectCredentials input) input.service input.region req).headers
          "host" }, ?_, ?_, ?_⟩
    · rw [sign_eq, h]
      simp
    · show getHeader (deleteHeader
          (ext.signFn (selectCredentials input) input.service input.region req).headers
          "host") "host" = none
      rw [getHeader_deleteHeader]
      simp
    · intro k hk
      show getHeader (deleteHeader
          (ext.signFn (selectCredentials input) input.service input.region req).headers
          "host") k = _
      rw [getHeader_deleteHeader]
      simp [hk]
  · rw [sign_eq, h]
    simp

/-- C3 witness: the theorem applied at `cGetPlain` with the collaborator
`authSigner`, whose signing step keeps the synthetic host header and adds an
authorization header. -/
theorem c3_host_header_removed_witness :
    (∃ r, AWSRequestSignatureV4.sign authSigner cGetPlain (some "headers") = Except.ok r ∧
      getHeader r.headers "host" = none ∧
      ∀ k, k ≠ "host" → getHeader r.headers k =
        getHeader (authSigner.signFn (selectCredentials cGetPlain) cGetPlain.service
          cGetPlain.region (withQuery cGetPlain (baseRequest cGetPlain))).headers k) ∧
    AWSRequestSignatureV4.sign authSigner cGetPlain (some "query") =
      Except.ok (authSigner.presignFn (selectCredentials cGetPlain) cGetPlain.service
        cGetPlain.region (withQuery cGetPlain (baseRequest cGetPlain))) :=
  c3_host_header_removed authSigner cGetPlain _ rfl

/-- C4: every error the wrapper itself produces is the missing-body
`BadRequestException`, whose `name` is `'BadRequestException'`; no other
error value originates in the wrapper (for any collaborators). -/
theorem c4_only_bad_request (ext : SignerModel) (input : RequestSignatureInput)
    (mode : Option String) (e : JsError)
    (h : AWSRequestSignatureV4.sign ext input mode = Except.error e) :
    e = BadRequestException "Request body is missing" ∧
    e.name = "BadRequestException" := by
  have he := (buildRequest_error_iff input e).mp ((sign_error_iff ext input mode e).mp h)
  refine ⟨he.2.2, ?_⟩
  rw [he.2.2]
  rfl

/-- C4 witness: the theorem applied at `cPostEmptyBody`, which makes `sign`
error. -/
theorem c4_only_bad_request_witness :
    BadRequestException "Request body is missing" =
      BadRequestException "Request body is missing" ∧
    (BadRequestException "Request body is missing").name = "BadRequestException" :=
  c4_only_bad_request idSigner cPostEmptyBody none
    (BadRequestException "Request body is missing") rfl

/-- C5 counterexample: `cRoleEmpty` has a present role ARN (the empty
string), yet `sign` hands the default-chain credential source to the
collaborators, because the code tests `input.roleArn ?` (JavaScript
truthiness), not presence. -/
theorem c5_counterexample :
    cRoleEmpty.roleArn = some "" ∧
    selectCredentials cRoleEmpty = CredentialSource.defaultChain ∧
    ∃ r, AWSRequestSignatureV4.sign probeSigner cRoleEmpty none = Except.ok r ∧
      r.body = some (credTag CredentialSource.defaultChain) :=
  ⟨rfl, rfl, ⟨_, rfl, rfl⟩⟩

/-- C5 (amended): the credential source is selected by the truthiness of the
role-ARN field: a present non-empty `roleArn` selects temporary
role-assumption credentials with session duration 3600, while an absent or
empty `roleArn` selects the default provider chain; `sign` hands exactly
this source to its collaborators. -/
theorem c5_credential_selection (input : RequestSignatureInput) :
    ((input.roleArn = none ∨ input.roleArn = some "") →
      selectCredentials input = CredentialSource.defaultChain) ∧
    (∀ arn, input.roleArn = some arn → arn ≠ "" →
      selectCredentials input = CredentialSource.temporary arn 3600) ∧
    (∀ req, buildRequest input = Except.ok req →
      AWSRequestSignatureV4.sign probeSigner input none =
        Except.ok { req with body := some (credTag (selectCredentials input)) }) := by
  refine ⟨?_, ?_, ?_⟩
  · rintro (h | h) <;> simp [selectCredentials, h]
  · intro arn h hne
    simp [selectCredentials, h, hne]
  · intro req h
    rw [sign_eq, h]
    simp [probeSigner]

/-- C5 witness: the amended theorem applied at `cRoleFull`, whose role ARN is
non-empty. -/
theorem c5_credential_selection_witness :
    selectCredentials cRoleFull =
      CredentialSource.temporary "arn:aws:iam::1111111111:role/example" 3600 :=
  (c5_credential_selection cRoleFull).2.1 "arn:aws:iam::1111111111:role/example"
    rfl (by decide)

/-- C6: with the collaborators (resolved credentials, signer, timestamp
capture) held fixed, `sign` is a pure function: two invocations on the same
input and mode return the same signed request. -/
theorem c6_deterministic (ext : SignerModel) (input : RequestSignatureInput)
    (mode : Option String) (r1 r2 : Except JsError HttpRequest)
    (h1 : AWSRequestSignatureV4.sign ext input mode = r1)
    (h2 : AWSRequestSignatureV4.sign ext input mode = r2) : r1 = r2 :=
  h1.symm.trans h2

/-- C6 witness: the theorem applied at `cGetPlain`. -/
theorem c6_deterministic_witness :
    AWSRequestSignatureV4.sign idSigner cGetPlain (some "query") =
      AWSRequestSignatureV4.sign idSigner cGetPlain (some "query") :=
  c6_deterministic idSigner cGetPlain (some "query") _ _ rfl rfl

/-- C7 counterexample: with an absent `path` but a hostname that itself
carries a path segment (`example.com/extra`), the request submitted for
signing has path `/extra`, not `/`. -/
theorem c7_counterexample :
    cHostSlash.path = none ∧
    buildRequest cHostSlash = Except.ok (baseRequest cHostSlash) ∧
    (baseRequest cHostSlash).path = "/extra" ∧
    (baseRequest cHostSlash).path ≠ "/" := by
  refine ⟨rfl, rfl, rfl, ?_⟩
  decide

/-- C7 (amended): provided the hostname is a plain host (it contains no `/`,
`\`, `?` or `#` — for the `https` scheme a backslash is parsed like a
forward slash), an absent or empty path yields a request whose path is the
root path `/`. -/
theorem c7_empty_path_root (input : RequestSignatureInput) (req : HttpRequest)
    (hpath : input.path = none ∨ input.path = some "")
    (hhost : input.hostname.toList.all plainHostChar = true)
    (hreq : buildRequest input = Except.ok req) :
    req.path = "/" := by
  have hurl : urlStrOf input = input.hostname := by
    unfold urlStrOf
    rcases hpath with h | h <;>
      · rw [h]
        exact String.ext (by simp [String.data_append])
  have hchars : urlPathChars input.hostname = [] := by
    unfold urlPathChars
    rw [dropWhile_eq_nil_of_all hhost]
    rfl
  have hbase : (baseRequest input).path = "/" := by
    show urlPathname (urlStrOf input) = "/"
    rw [hurl]
    unfold urlPathname
    rw [hchars]
    rfl
  exact (buildRequest_ok_shape input req hreq).1.trans hbase

/-- C7 witness: the amended theorem applied at `cRoleEmpty` (hostname
`example.com`, absent path). -/
theorem c7_empty_path_root_witness : (baseRequest cRoleEmpty).path = "/" :=
  c7_empty_path_root cRoleEmpty (baseRequest cRoleEmpty) (Or.inl rfl)
    (by decide) rfl

/-- C8: for a GET input the body is never attached — the request handed to
the signer has no body even when `input.body` is present — and the
missing-body validation never fires: `sign` succeeds for any collaborators
and mode. -/
theorem c8_get_body_ignored (input : RequestSignatureInput)
    (h : input.method = Method.GET) :
    (∃ req, buildRequest input = Except.ok req ∧ req.body = none) ∧
    ∀ ext mode, ∃ r, AWSRequestSignatureV4.sign ext input mode = Except.ok r := by
  constructor
  · refine ⟨_, buildRequest_ok_GET input h, ?_⟩
    rw [withQuery_body]
    rfl
  · intro ext mode
    rw [sign_eq, buildRequest_ok_GET input h]
    by_cases hmode : mode = some "headers" <;> simp [hmode]

/-- C8 witness: the theorem applied at `cGetPlain`, whose body is present. -/
theorem c8_get_body_ignored_witness :
    cGetPlain.body = some "ignored" ∧
    ((∃ req, buildRequest cGetPlain = Except.ok req ∧ req.body = none) ∧
      ∀ ext mode, ∃ r, AWSRequestSignatureV4.sign ext cGetPlain mode = Except.ok r) :=
  ⟨rfl, c8_get_body_ignored cGetPlain rfl⟩

/-- C9: the pre-signing request's `host` header is the hostname parsed from
`https://(hostname)(path)`, overriding any caller-supplied `host` entry; every
other caller header is carried over unchanged, and the request handed to the
signer keeps exactly these headers. -/
theorem c9_host_header (input : RequestSignatureInput) :
    getHeader (baseRequest input).headers "host" =
      some (urlHostname (input.hostname ++ input.path.getD "")) ∧
    (∀ k, k ≠ "host" →
      getHeader (baseRequest input).headers k = getHeader (input.headers.getD []) k) ∧
    ∀ req, buildRequest input = Except.ok req →
      req.headers = (baseRequest input).headers := by
  have hh : (baseRequest input).headers =
      setHeader (input.headers.getD []) "host" (urlHostname (urlStrOf input)) := rfl
  refine ⟨?_, ?_, ?_⟩
  · rw [hh, getHeader_setHeader]
    rfl
  · intro k hk
    rw [hh, getHeader_setHeader]
    simp [hk]
  · intro req h
    exact (buildRequest_ok_shape input req h).2

/-- C9 witness: the theorem applied at `cGetPlain`, whose caller headers
include both an `x-api-key` entry and a (to-be-overridden) `host` entry. -/
theorem c9_host_header_witness :
    getHeader (baseRequest cGetPlain).headers "x-api-key" =
      getHeader (cGetPlain.headers.getD []) "x-api-key" :=
  (c9_host_header cGetPlain).2.1 "x-api-key" (by decide)

/-- C10: only the exact mode value `'headers'` selects the header-signing
branch (with host removal); an omitted mode or any other value — including
other strings — takes the presign branch, whose output is returned
unchanged. -/
theorem c10_mode_dispatch (ext : SignerModel) (input : RequestSignatureInput)
    (mode : Option String) (req : HttpRequest)
    (h : buildRequest input = Except.ok req) :
    (mode ≠ some "headers" →
      AWSRequestSignatureV4.sign ext input mode =
        Except.ok (ext.presignFn (selectCredentials input) input.service input.region req)) ∧
    (mode = some "headers" →
      AWSRequestSignatureV4.sign ext input mode =
        Except.ok { ext.signFn (selectCredentials input) input.service input.region req with
                    headers := deleteHeader
                      (ext.signFn (selectCredentials input) input.service input.region req).headers
                      "host" }) := by
  constructor
  · intro hmode
    rw [sign_eq, h]
    simp [hmode]
  · intro hmode
    rw [sign_eq, h]
    simp [hmode]

/-- C10 witness: the theorem applied at `cGetPlain` with the near-miss mode
value `'Headers'`, which takes the presign branch. -/
theorem c10_mode_dispatch_witness :
    AWSRequestSignatureV4.sign idSigner cGetPlain (some "Headers") =
      Except.ok (idSigner.presignFn (selectCredentials cGetPlain) cGetPlain.service
        cGetPlain.region (withQuery cGetPlain (baseRequest cGetPlain))) :=
  (c10_mode_dispatch idSigner cGetPlain (some "Headers")
    (withQuery cGetPlain (baseRequest cGetPlain)) rfl).1 (by decide)
